import Mathlib

/-!
Shallow embedding of the connection-management layer of the davinci-resolve-20-mcp
repository (src/core/connection.py, src/core/decorators.py, src/core/errors.py),
together with theorems settling the specification claims about that layer.

External objects reachable from the DaVinci Resolve scripting handle are modelled
as explicit handle structures whose `Option` fields record which layers the
external application currently exposes; Python exceptions are values of `PyExc`
and raising code returns `Except PyExc`.
-/

namespace DaVinciResolve

/-- Exceptions raised by the facade: the `ResolveError` hierarchy of
src/core/errors.py, the built-in `ValueError` raised by `switch_page` and
`validate_params`, and a constructor for any other exception a handler may
raise.  Each constructor carries the message that `str(e)` would produce. -/
inductive PyExc where
  | notConnected (msg : String)
  | noProject (msg : String)
  | noTimeline (msg : String)
  | noMediaPool (msg : String)
  | clipNotFound (msg : String)
  | timelineItemNotFound (msg : String)
  | invalidParameter (msg : String)
  | valueError (msg : String)
  | otherError (msg : String)
deriving DecidableEq, Repr

/-- Whether the exception is an instance of `ResolveError` (errors.py):
`ValueError` and arbitrary other exceptions are not. -/
def PyExc.isResolveError : PyExc → Bool
  | .valueError _ => false
  | .otherError _ => false
  | _ => true

/-- The message `str(e)` yields, i.e. the argument passed to `Exception.__init__`. -/
def PyExc.message : PyExc → String
  | .notConnected m => m
  | .noProject m => m
  | .noTimeline m => m
  | .noMediaPool m => m
  | .clipNotFound m => m
  | .timelineItemNotFound m => m
  | .invalidParameter m => m
  | .valueError m => m
  | .otherError m => m

/-- Python's `str.lower()` as used by `switch_page` and `find_folder_by_name`
(character-wise lower-casing; the names compared here are ASCII). -/
def pyLower (s : String) : String := String.mk (s.data.map Char.toLower)

/-- A media pool clip; only its name is observed by the embedded helpers. -/
structure Clip where
  name : String
deriving DecidableEq, BEq, Repr

/-- A media pool folder as observed through `GetClipList` / `GetSubFolderList` /
`GetName`.  Either list may be absent (`None` from the external API). -/
inductive Folder where
  | mk (name : String) (clipList : Option (List Clip)) (subFolderList : Option (List Folder))

/-- Result of `GetName` on a folder. -/
def Folder.getName : Folder → String
  | .mk n _ _ => n

/-- The folder's own clips, with an absent list read as empty. -/
def Folder.ownClips : Folder → List Clip
  | .mk _ cl _ => cl.getD []

/-- The folder's sub-folders, with an absent list read as empty. -/
def Folder.subFolders : Folder → List Folder
  | .mk _ _ sf => sf.getD []

/-- A timeline item; `uniqueId` models `str(item.GetUniqueId())`. -/
structure TimelineItem where
  uniqueId : String
deriving DecidableEq, Repr

/-- A timeline as observed through `GetTrackCount` / `GetItemListInTrack`:
for each track type, the per-track item lists (1-based index i is entry i-1;
an absent entry models `GetItemListInTrack` returning `None`). -/
structure TimelineHandle where
  videoTracks : List (Option (List TimelineItem))
  audioTracks : List (Option (List TimelineItem))
  subtitleTracks : List (Option (List TimelineItem))

/-- Opaque media storage object. -/
structure MediaStorageHandle where
  tag : String
deriving DecidableEq, Repr

/-- Opaque gallery object. -/
structure GalleryHandle where
  tag : String
deriving DecidableEq, Repr

/-- The media pool; `rootFolder` models `GetRootFolder`. -/
structure MediaPoolHandle where
  rootFolder : Folder

/-- A project as observed through `GetMediaPool` / `GetCurrentTimeline` /
`GetGallery`; each may return `None`. -/
structure ProjectHandle where
  mediaPool : Option MediaPoolHandle
  currentTimeline : Option TimelineHandle
  gallery : Option GalleryHandle

/-- The project manager; `currentProject` models `GetCurrentProject`. -/
structure ProjectManagerHandle where
  currentProject : Option ProjectHandle

/-- The root scripting handle returned by `scriptapp("Resolve")`, as observed
through `GetProjectManager`, `GetMediaStorage`, `GetCurrentPage` and `OpenPage`
(the latter given by the external application's success response). -/
structure ResolveHandle where
  projectManager : Option ProjectManagerHandle
  mediaStorage : Option MediaStorageHandle
  currentPage : String
  openPage : String → Bool

/-- The `ResolveConnection` state: its `_resolve` attribute. -/
structure ResolveConnection where
  resolveHandle : Option ResolveHandle

/-- Property `is_connected`: the handle is present. -/
def ResolveConnection.is_connected (c : ResolveConnection) : Bool :=
  c.resolveHandle.isSome

/-- Property `resolve`: the handle, raising `NotConnectedError()` when absent. -/
def ResolveConnection.resolve (c : ResolveConnection) : Except PyExc ResolveHandle :=
  match c.resolveHandle with
  | none => .error (.notConnected "Not connected to DaVinci Resolve")
  | some r => .ok r

/-- Property `project_manager`: `GetProjectManager` on `resolve`, raising
`NotConnectedError("Failed to get Project Manager")` when it yields nothing. -/
def ResolveConnection.project_manager (c : ResolveConnection) :
    Except PyExc ProjectManagerHandle := do
  let r ← c.resolve
  match r.projectManager with
  | none => .error (.notConnected "Failed to get Project Manager")
  | some pm => pure pm

/-- Property `current_project`: `GetCurrentProject` on `project_manager`,
raising `NoProjectError()` when no project is open. -/
def ResolveConnection.current_project (c : ResolveConnection) :
    Except PyExc ProjectHandle := do
  let pm ← c.project_manager
  match pm.currentProject with
  | none => .error (.noProject "No project currently open")
  | some p => pure p

/-- Property `media_pool`: `GetMediaPool` on `current_project`, raising
`NoMediaPoolError()` when unavailable. -/
def ResolveConnection.media_pool (c : ResolveConnection) :
    Except PyExc MediaPoolHandle := do
  let p ← c.current_project
  match p.mediaPool with
  | none => .error (.noMediaPool "Failed to get Media Pool")
  | some mp => pure mp

/-- Property `current_timeline`: `GetCurrentTimeline` on `current_project`,
raising `NoTimelineError()` when no timeline is active. -/
def ResolveConnection.current_timeline (c : ResolveConnection) :
    Except PyExc TimelineHandle := do
  let p ← c.current_project
  match p.currentTimeline with
  | none => .error (.noTimeline "No timeline currently active")
  | some t => pure t

/-- Property `media_storage`: returns `self.resolve.GetMediaStorage()` with no
check on the returned value. -/
def ResolveConnection.media_storage (c : ResolveConnection) :
    Except PyExc (Option MediaStorageHandle) := do
  let r ← c.resolve
  pure r.mediaStorage

/-- Property `gallery`: returns `self.current_project.GetGallery()` with no
check on the returned value. -/
def ResolveConnection.gallery (c : ResolveConnection) :
    Except PyExc (Option GalleryHandle) := do
  let p ← c.current_project
  pure p.gallery

/-- Method `get_current_page`: `GetCurrentPage` on `resolve`. -/
def ResolveConnection.get_current_page (c : ResolveConnection) :
    Except PyExc String := do
  let r ← c.resolve
  pure r.currentPage

/-- The `valid_pages` list of `switch_page`. -/
def valid_pages : List String :=
  ["media", "cut", "edit", "fusion", "color", "fairlight", "deliver"]

/-- Method `switch_page`: validates the lower-cased page name against
`valid_pages`, raising `ValueError` otherwise, then forwards the lower-cased
name to `OpenPage` and returns its boolean. -/
def ResolveConnection.switch_page (c : ResolveConnection) (page : String) :
    Except PyExc Bool :=
  if pyLower page ∉ valid_pages then
    .error (.valueError
      ("Invalid page. Must be one of: " ++ String.intercalate ", " valid_pages))
  else do
    let r ← c.resolve
    pure (r.openPage (pyLower page))

mutual
/-- Method `get_all_clips` applied to an explicit folder: the folder's own clip
list (absent read as empty) followed by the clips of each sub-folder in order. -/
def get_all_clips : Folder → List Clip
  | .mk _ cl none => cl.getD []
  | .mk _ cl (some fs) => cl.getD [] ++ get_all_clips_list fs
/-- The `for sub_folder in folder.GetSubFolderList() or []` loop of
`get_all_clips`. -/
def get_all_clips_list : List Folder → List Clip
  | [] => []
  | f :: fs => get_all_clips f ++ get_all_clips_list fs
end

mutual
/-- Method `get_all_folders` applied to an explicit folder: the folder itself
followed by the folders of each sub-folder in order. -/
def get_all_folders : Folder → List Folder
  | .mk n cl none => [.mk n cl none]
  | .mk n cl (some fs) => .mk n cl (some fs) :: get_all_folders_list fs
/-- The `for sub_folder in folder.GetSubFolderList() or []` loop of
`get_all_folders`. -/
def get_all_folders_list : List Folder → List Folder
  | [] => []
  | f :: fs => get_all_folders f ++ get_all_folders_list fs
end

/-- The `for folder in self.get_all_folders()` first-match loop of
`find_folder_by_name`. -/
def first_folder_match (name : String) : List Folder → Option Folder
  | [] => none
  | f :: fs => if f.getName == name then some f else first_folder_match name fs

/-- Method `find_folder_by_name`: the names `root` and `master`
(case-insensitively) short-circuit to the media pool root folder; any other
name is looked up by a first-match scan over `get_all_folders`. -/
def ResolveConnection.find_folder_by_name (c : ResolveConnection) (name : String) :
    Except PyExc (Option Folder) :=
  if pyLower name == "root" || pyLower name == "master" then do
    let mp ← c.media_pool
    pure (some mp.rootFolder)
  else do
    let mp ← c.media_pool
    pure (first_folder_match name (get_all_folders mp.rootFolder))

/-- Dispatch of `GetItemListInTrack`'s first argument: the per-track item lists
of the given track type (unknown types expose no tracks). -/
def TimelineHandle.tracksOf (tl : TimelineHandle) : String → List (Option (List TimelineItem))
  | "video" => tl.videoTracks
  | "audio" => tl.audioTracks
  | "subtitle" => tl.subtitleTracks
  | _ => []

/-- The `for track_idx in range(1, track_count + 1)` loop of
`find_timeline_item_by_id`, carrying the 1-based index: an absent item list is
skipped, otherwise the first item whose `uniqueId` equals `item_id` is
returned with its track type and index. -/
def scan_track (ttype : String) (item_id : String) :
    Nat → List (Option (List TimelineItem)) → Option (TimelineItem × String × Nat)
  | _, [] => none
  | idx, t :: rest =>
    match (t.getD []).find? (fun item => item.uniqueId == item_id) with
    | some item => some (item, ttype, idx)
    | none => scan_track ttype item_id (idx + 1) rest

/-- The `for track_type in ["video", "audio", "subtitle"]` loop of
`find_timeline_item_by_id`. -/
def scan_types (tl : TimelineHandle) (item_id : String) :
    List String → Option (TimelineItem × String × Nat)
  | [] => none
  | ty :: rest =>
    match scan_track ty item_id 1 (tl.tracksOf ty) with
    | some r => some r
    | none => scan_types tl item_id rest

/-- Method `find_timeline_item_by_id`: scans every track of every track type of
the current timeline and returns the first item whose unique id (as a string)
equals `item_id`, together with its track type and 1-based track index. -/
def ResolveConnection.find_timeline_item_by_id (c : ResolveConnection)
    (item_id : String) : Except PyExc (Option (TimelineItem × String × Nat)) := do
  let tl ← c.current_timeline
  pure (scan_types tl item_id ["video", "audio", "subtitle"])

/-- Specification-side flattening of one track type's scan order, starting at
the given 1-based index: items of earlier tracks first, each track's items in
list order. -/
def track_scan_from (ty : String) (idx : Nat) :
    List (Option (List TimelineItem)) → List (TimelineItem × String × Nat)
  | [] => []
  | t :: rest => (t.getD []).map (fun item => (item, ty, idx)) ++ track_scan_from ty (idx + 1) rest

/-- Specification-side full scan order of `find_timeline_item_by_id`: all video
track items, then all audio track items, then all subtitle track items. -/
def timeline_scan_order (tl : TimelineHandle) : List (TimelineItem × String × Nat) :=
  track_scan_from "video" 1 tl.videoTracks ++
    track_scan_from "audio" 1 tl.audioTracks ++
      track_scan_from "subtitle" 1 tl.subtitleTracks

/-- Whether a scan entry's item carries the sought unique id. -/
def matches_id (item_id : String) (e : TimelineItem × String × Nat) : Bool :=
  e.1.uniqueId == item_id

/-- Outcome of one acquisition attempt
(`import DaVinciResolveScript; dvr_script.scriptapp("Resolve")`): the import
may raise, `scriptapp` may raise, or it returns a possibly-null handle. -/
inductive AcquireOutcome where
  | importError (msg : String)
  | raised (msg : String)
  | acquired (handle : Option ResolveHandle)

/-- Whether the acquisition attempt failed to produce a handle. -/
def connectAttemptFailed : AcquireOutcome → Bool
  | .importError _ => true
  | .raised _ => true
  | .acquired none => true
  | .acquired (some _) => false

/-- Method `_connect`: on either exception the handle is set to `None`; on a
normal return the returned (possibly null) handle replaces the old one.  No
exception escapes. -/
def ResolveConnection.connect (c : ResolveConnection) (out : AcquireOutcome) :
    ResolveConnection :=
  match out with
  | .importError _ => { c with resolveHandle := none }
  | .raised _ => { c with resolveHandle := none }
  | .acquired h => { c with resolveHandle := h }

/-- Method `reconnect`: runs `_connect` and returns `is_connected`. -/
def ResolveConnection.reconnect (c : ResolveConnection) (out : AcquireOutcome) :
    Bool × ResolveConnection :=
  let c2 := c.connect out
  (c2.is_connected, c2)

/-- Modelled from the spec: `_setup_paths` calls `get_resolve_paths` from
src/utils/platform.py, which is not in the source snapshot; spec section 6
treats this platform bootstrap (path lookup and environment variables) as out
of scope, so it is modelled as having no observable effect on connection
state and as raising nothing. -/
def setup_paths (c : ResolveConnection) : ResolveConnection := c

/-- Construction of the singleton (`__new__` plus `__init__`): a fresh state
with no handle, path setup, then the initial `_connect` attempt. -/
def ResolveConnection.new (out : AcquireOutcome) : ResolveConnection :=
  (setup_paths { resolveHandle := none }).connect out

/-- The module-level `_connection` global of connection.py. -/
structure ModuleState where
  connection : Option ResolveConnection

/-- Function `get_resolve`: constructs the singleton on first call (performing
the initial connect attempt), returns the cached object on every later call. -/
def get_resolve (ms : ModuleState) (out : AcquireOutcome) :
    ResolveConnection × ModuleState :=
  match ms.connection with
  | some c => (c, ms)
  | none =>
    let c := ResolveConnection.new out
    (c, { connection := some c })

/-- Return type of a handler wrapped by `handle_resolve_errors`: Python's
`str | T`. -/
inductive ToolResult (T : Type) where
  | value (v : T)
  | errorString (s : String)
deriving DecidableEq, Repr

/-- Decorator `handle_resolve_errors`: the handler's normal value, or, when it
raises, the string `Error: <message>`.  Both except branches (`ResolveError`
and generic `Exception`) format the result identically; they differ only in
the log line. -/
def handle_resolve_errors {α β : Type} (func : α → Except PyExc β) (a : α) :
    ToolResult β :=
  match func a with
  | .ok v => .value v
  | .error e =>
    if e.isResolveError then .errorString ("Error: " ++ e.message)
    else .errorString ("Error: " ++ e.message)

/-- Observable run of a `with_page`-wrapped call: its outcome, the arguments of
the `conn.switch_page` calls made inside the `try` block and inside the
`finally` block, and whether the wrapped handler was reached. -/
structure WithPageRun (T : Type) where
  result : Except PyExc T
  callsBefore : List String
  callsAfter : List String
  handlerRan : Bool

/-- Decorator `with_page`: records `conn.get_current_page()`, switches to the
target page only if the recorded page differs, runs the handler, and in a
`finally` block switches back to the recorded page when that page is non-empty
and differs from the target.  An exception from the `finally` switch replaces
the in-flight result, as in Python. -/
def with_page {T : Type} (page : String) (c : ResolveConnection)
    (handler : Except PyExc T) : WithPageRun T :=
  match c.get_current_page with
  | .error e =>
    { result := .error e, callsBefore := [], callsAfter := [], handlerRan := false }
  | .ok original =>
    let tryOut : Except PyExc T × List String × Bool :=
      if original != page then
        match c.switch_page page with
        | .error e => (.error e, [page], false)
        | .ok _ => (handler, [page], true)
      else (handler, [], true)
    if original != "" && original != page then
      match c.switch_page original with
      | .error e =>
        { result := .error e, callsBefore := tryOut.2.1, callsAfter := [original],
          handlerRan := tryOut.2.2 }
      | .ok _ =>
        { result := tryOut.1, callsBefore := tryOut.2.1, callsAfter := [original],
          handlerRan := tryOut.2.2 }
    else
      { result := tryOut.1, callsBefore := tryOut.2.1, callsAfter := [],
        handlerRan := tryOut.2.2 }

/-! Concrete states used to instantiate the theorems below. -/

/-- A concrete media storage object. -/
def msEx : MediaStorageHandle := ⟨"media storage"⟩

/-- A concrete gallery object. -/
def galEx : GalleryHandle := ⟨"gallery"⟩

/-- A concrete leaf folder. -/
def folderC : Folder := .mk "C" (some [⟨"c1"⟩]) none

/-- A concrete folder with an absent clip list and one sub-folder. -/
def folderB : Folder := .mk "B" none (some [folderC])

/-- A concrete root folder. -/
def rootEx : Folder := .mk "Master" (some [⟨"a"⟩]) (some [folderB])

/-- A concrete media pool. -/
def mpEx : MediaPoolHandle := ⟨rootEx⟩

/-- A concrete timeline whose video track 3 and audio track 1 share the unique
id `dup`. -/
def tlEx : TimelineHandle :=
  { videoTracks := [some [⟨"v11"⟩], none, some [⟨"dup"⟩, ⟨"v32"⟩]]
    audioTracks := [some [⟨"dup"⟩]]
    subtitleTracks := [] }

/-- A concrete project with all layers present. -/
def projEx : ProjectHandle :=
  { mediaPool := some mpEx, currentTimeline := some tlEx, gallery := some galEx }

/-- A concrete project manager with an open project. -/
def pmEx : ProjectManagerHandle := ⟨some projEx⟩

/-- A concrete fully populated application handle. -/
def rEx : ResolveHandle :=
  { projectManager := some pmEx, mediaStorage := some msEx,
    currentPage := "edit", openPage := fun _ => true }

/-- A connected connection with every layer present. -/
def cEx : ResolveConnection := ⟨some rEx⟩

/-- A disconnected connection. -/
def cDisc : ResolveConnection := ⟨none⟩

/-- A project manager with no open project. -/
def pmNoProj : ProjectManagerHandle := ⟨none⟩

/-- A handle whose project manager has no open project. -/
def rNoProj : ResolveHandle :=
  { projectManager := some pmNoProj, mediaStorage := some msEx,
    currentPage := "edit", openPage := fun _ => true }

/-- A connected connection with no open project. -/
def cNoProj : ResolveConnection := ⟨some rNoProj⟩

/-- A handle with no project manager. -/
def rNoPm : ResolveHandle :=
  { projectManager := none, mediaStorage := some msEx,
    currentPage := "edit", openPage := fun _ => true }

/-- A connected connection whose handle yields no project manager. -/
def cNoPm : ResolveConnection := ⟨some rNoPm⟩

/-- A project none of whose derived objects are available. -/
def projNull : ProjectHandle :=
  { mediaPool := none, currentTimeline := none, gallery := none }

/-- A handle with an open but empty project and no media storage. -/
def rNull : ResolveHandle :=
  { projectManager := some ⟨some projNull⟩, mediaStorage := none,
    currentPage := "edit", openPage := fun _ => true }

/-- A connected connection whose deeper layers are all absent. -/
def cNull : ResolveConnection := ⟨some rNull⟩

/-! Theorems. -/

/-- Reduction of the exception monad's bind on a success value. -/
theorem except_bind_ok {ε α β : Type} (a : α) (f : α → Except ε β) :
    (Except.ok a : Except ε α) >>= f = f a := rfl

/-- Reduction of the exception monad's bind on a raised exception. -/
theorem except_bind_error {ε α β : Type} (e : ε) (f : α → Except ε β) :
    (Except.error e : Except ε α) >>= f = Except.error e := rfl

/-- C1: missing-layer conditions form a strict hierarchy: `current_project` on a
disconnected connection raises not-connected (never no-project), and
`current_timeline` on a connected connection with no open project raises
no-project (never no-timeline) — each accessor re-validates the shallower
layers first. -/
theorem missing_layer_hierarchy (c : ResolveConnection) :
    (c.resolveHandle = none →
      c.current_project = .error (.notConnected "Not connected to DaVinci Resolve"))
    ∧ (c.resolveHandle = none →
      ∀ m, c.current_project ≠ .error (.noProject m))
    ∧ (∀ r pm, c.resolveHandle = some r → r.projectManager = some pm →
      pm.currentProject = none →
      c.current_timeline = .error (.noProject "No project currently open"))
    ∧ (∀ r pm, c.resolveHandle = some r → r.projectManager = some pm →
      pm.currentProject = none →
      ∀ m, c.current_timeline ≠ .error (.noTimeline m)) := by
  refine ⟨?_, ?_, ?_, ?_⟩
  · intro h
    simp [ResolveConnection.current_project, ResolveConnection.project_manager,
      ResolveConnection.resolve, h, except_bind_error, except_bind_ok]
  · intro h m
    have h1 : c.current_project =
        .error (.notConnected "Not connected to DaVinci Resolve") := by
      simp [ResolveConnection.current_project, ResolveConnection.project_manager,
        ResolveConnection.resolve, h, except_bind_error, except_bind_ok]
    rw [h1]
    intro heq
    injection heq with h2
    exact PyExc.noConfusion h2
  · intro r pm hr hpm hnone
    simp [ResolveConnection.current_timeline, ResolveConnection.current_project,
      ResolveConnection.project_manager, ResolveConnection.resolve, hr, hpm, hnone,
      except_bind_error, except_bind_ok]
  · intro r pm hr hpm hnone m
    have h1 : c.current_timeline = .error (.noProject "No project currently open") := by
      simp [ResolveConnection.current_timeline, ResolveConnection.current_project,
        ResolveConnection.project_manager, ResolveConnection.resolve, hr, hpm, hnone,
        except_bind_error, except_bind_ok]
    rw [h1]
    intro heq
    injection heq with h2
    exact PyExc.noConfusion h2

/-- C1 witness: the two scenario states evaluated concretely. -/
theorem missing_layer_hierarchy_witness :
    cDisc.current_project = .error (.notConnected "Not connected to DaVinci Resolve")
    ∧ cNoProj.current_timeline = .error (.noProject "No project currently open") :=
  ⟨(missing_layer_hierarchy cDisc).1 rfl,
   (missing_layer_hierarchy cNoProj).2.2.1 rNoProj pmNoProj rfl rfl rfl⟩

/-- C2: the error-to-string wrapper never propagates: it returns either the
handler's value or the string `Error: <message>` of the raised exception. -/
theorem handle_resolve_errors_never_raises {α β : Type}
    (func : α → Except PyExc β) (a : α) :
    (∃ v, func a = .ok v ∧ handle_resolve_errors func a = .value v)
    ∨ (∃ e, func a = .error e ∧
        handle_resolve_errors func a = .errorString ("Error: " ++ e.message)) := by
  cases h : func a with
  | ok v =>
    exact .inl ⟨v, rfl, by simp [handle_resolve_errors, h]⟩
  | error e =>
    refine .inr ⟨e, rfl, ?_⟩
    simp only [handle_resolve_errors, h]
    split <;> rfl

/-- C6 (amended): `switch_page` accepts the enumerated page names
case-insensitively, forwarding the lower-cased name and returning the
application's boolean; any other string raises a built-in `ValueError`
(not the domain `InvalidParameterError`) before any forwarding. -/
theorem switch_page_validates (page : String) :
    (∀ (c : ResolveConnection) (r : ResolveHandle), c.resolveHandle = some r →
      pyLower page ∈ valid_pages →
      c.switch_page page = .ok (r.openPage (pyLower page)))
    ∧ (pyLower page ∉ valid_pages →
      ∀ c : ResolveConnection, c.switch_page page =
        .error (.valueError
          ("Invalid page. Must be one of: " ++ String.intercalate ", " valid_pages))) := by
  constructor
  · intro c r hc hmem
    rw [ResolveConnection.switch_page, if_neg (by simpa using hmem)]
    simp [ResolveConnection.resolve, hc, except_bind_ok, pure, Except.pure]
  · intro hnot c
    rw [ResolveConnection.switch_page, if_pos hnot]

/-- C6 witness: a valid page accepted case-insensitively and an invalid page
rejected, on a concrete connected state. -/
theorem switch_page_validates_witness :
    cEx.switch_page "EDIT" = .ok true
    ∧ cEx.switch_page "timeline" = .error (.valueError
        "Invalid page. Must be one of: media, cut, edit, fusion, color, fairlight, deliver") := by
  constructor
  · exact ((switch_page_validates "EDIT").1 cEx rEx rfl (by decide)).trans rfl
  · exact ((switch_page_validates "timeline").2 (by decide) cEx).trans rfl

/-- C6 counterexample: for the invalid page name `timeline`, `switch_page`
raises the built-in `ValueError`, not the `InvalidParameterError` condition of
errors.py, which is never raised. -/
theorem switch_page_not_invalid_parameter :
    cEx.switch_page "timeline" = .error (.valueError
      "Invalid page. Must be one of: media, cut, edit, fusion, color, fairlight, deliver")
    ∧ ∀ m, cEx.switch_page "timeline" ≠ .error (.invalidParameter m) := by
  have h : cEx.switch_page "timeline" = .error (.valueError
      "Invalid page. Must be one of: media, cut, edit, fusion, color, fairlight, deliver") := by
    rfl
  refine ⟨h, fun m hm => ?_⟩
  rw [h] at hm
  injection hm with hm2
  exact PyExc.noConfusion hm2

/-- C8: `get_resolve` never fails: the first call constructs and stores the
singleton even when the connect attempt fails (the object is then marked
unconnected), and every later call returns the stored object unchanged. -/
theorem get_resolve_singleton (out : AcquireOutcome) :
    ((get_resolve { connection := none } out).2.connection =
      some (get_resolve { connection := none } out).1)
    ∧ (connectAttemptFailed out = true →
      (get_resolve { connection := none } out).1.is_connected = false)
    ∧ (∀ c : ResolveConnection,
      get_resolve { connection := some c } out = (c, { connection := some c })) := by
  refine ⟨rfl, ?_, fun c => rfl⟩
  intro hf
  cases out with
  | importError m => rfl
  | raised m => rfl
  | acquired hdl =>
    cases hdl with
    | none => rfl
    | some r => simp [connectAttemptFailed] at hf

/-- C8 witness: a failing first connect attempt still yields a stored,
unconnected singleton, and a later call returns the cached object. -/
theorem get_resolve_singleton_witness :
    (get_resolve { connection := none } (.raised "scriptapp returned nothing")).1.is_connected
      = false
    ∧ get_resolve { connection := some cEx } (.raised "scriptapp returned nothing")
      = (cEx, { connection := some cEx }) :=
  ⟨(get_resolve_singleton (.raised "scriptapp returned nothing")).2.1 rfl,
   (get_resolve_singleton (.raised "scriptapp returned nothing")).2.2 cEx⟩

/-- C10: `reconnect` reflects only the new acquisition attempt: on any failed
attempt the cached handle is discarded and the connection reports
disconnected, and the returned boolean always equals the resulting
`is_connected`. -/
theorem reconnect_reflects_new_attempt (c : ResolveConnection) (out : AcquireOutcome) :
    ((c.reconnect out).1 = (c.reconnect out).2.is_connected)
    ∧ (connectAttemptFailed out = true →
      (c.reconnect out).2.resolveHandle = none ∧ (c.reconnect out).1 = false) := by
  refine ⟨rfl, fun hf => ?_⟩
  cases out with
  | importError m => exact ⟨rfl, rfl⟩
  | raised m => exact ⟨rfl, rfl⟩
  | acquired hdl =>
    cases hdl with
    | none => exact ⟨rfl, rfl⟩
    | some r => simp [connectAttemptFailed] at hf

/-- C10 witness: a previously working connection is left disconnected, with the
old handle discarded, after a failed reconnect. -/
theorem reconnect_reflects_new_attempt_witness :
    cEx.is_connected = true
    ∧ (cEx.reconnect (.importError "No module named DaVinciResolveScript")).2.resolveHandle
      = none
    ∧ (cEx.reconnect (.importError "No module named DaVinciResolveScript")).1 = false :=
  ⟨rfl,
   ((reconnect_reflects_new_attempt cEx
      (.importError "No module named DaVinciResolveScript")).2 rfl).1,
   ((reconnect_reflects_new_attempt cEx
      (.importError "No module named DaVinciResolveScript")).2 rfl).2⟩

/-- C9 (amended): `project_manager`, `current_project`, `media_pool` and
`current_timeline` each raise a distinct condition when their layer is absent;
`media_storage` and `gallery` validate only their shallower layers and return
the external call's result unchecked, so they may return a null reference
silently when the storage or gallery object itself is absent. -/
theorem accessor_layer_conditions :
    (∀ (c : ResolveConnection) (r : ResolveHandle), c.resolveHandle = some r →
      r.projectManager = none →
      c.project_manager = .error (.notConnected "Failed to get Project Manager"))
    ∧ (∀ (c : ResolveConnection) (r : ResolveHandle) (pm : ProjectManagerHandle),
      c.resolveHandle = some r → r.projectManager = some pm →
      pm.currentProject = none →
      c.current_project = .error (.noProject "No project currently open"))
    ∧ (∀ (c : ResolveConnection) (p : ProjectHandle), c.current_project = .ok p →
      p.mediaPool = none →
      c.media_pool = .error (.noMediaPool "Failed to get Media Pool"))
    ∧ (∀ (c : ResolveConnection) (p : ProjectHandle), c.current_project = .ok p →
      p.currentTimeline = none →
      c.current_timeline = .error (.noTimeline "No timeline currently active"))
    ∧ (∀ c : ResolveConnection, c.resolveHandle = none →
      c.media_storage = .error (.notConnected "Not connected to DaVinci Resolve"))
    ∧ (∀ (c : ResolveConnection) (r : ResolveHandle), c.resolveHandle = some r →
      c.media_storage = .ok r.mediaStorage)
    ∧ (∀ (c : ResolveConnection) (p : ProjectHandle), c.current_project = .ok p →
      c.gallery = .ok p.gallery) := by
  refine ⟨?_, ?_, ?_, ?_, ?_, ?_, ?_⟩
  · intro c r hc hpm
    simp [ResolveConnection.project_manager, ResolveConnection.resolve, hc, hpm,
      except_bind_ok, except_bind_error]
  · intro c r pm hc hpm hp
    simp [ResolveConnection.current_project, ResolveConnection.project_manager,
      ResolveConnection.resolve, hc, hpm, hp, except_bind_ok, except_bind_error]
  · intro c p hp hmp
    simp [ResolveConnection.media_pool, hp, hmp, except_bind_ok, except_bind_error]
  · intro c p hp htl
    simp [ResolveConnection.current_timeline, hp, htl, except_bind_ok, except_bind_error]
  · intro c hc
    simp [ResolveConnection.media_storage, ResolveConnection.resolve, hc,
      except_bind_ok, except_bind_error]
  · intro c r hc
    simp [ResolveConnection.media_storage, ResolveConnection.resolve, hc,
      except_bind_ok, except_bind_error, pure, Except.pure]
  · intro c p hp
    simp [ResolveConnection.gallery, hp, except_bind_ok, except_bind_error,
      pure, Except.pure]

/-- C9 witness: each checked accessor raising its condition, and the unchecked
accessors passing absent objects through, on concrete states. -/
theorem accessor_layer_conditions_witness :
    cNoPm.project_manager = .error (.notConnected "Failed to get Project Manager")
    ∧ cNull.media_pool = .error (.noMediaPool "Failed to get Media Pool")
    ∧ cNull.current_timeline = .error (.noTimeline "No timeline currently active")
    ∧ cNull.media_storage = .ok none
    ∧ cNull.gallery = .ok none :=
  ⟨(accessor_layer_conditions).1 cNoPm rNoPm rfl rfl,
   (accessor_layer_conditions).2.2.1 cNull projNull rfl rfl,
   (accessor_layer_conditions).2.2.2.1 cNull projNull rfl rfl,
   ((accessor_layer_conditions).2.2.2.2.2.1 cNull rNull rfl).trans rfl,
   ((accessor_layer_conditions).2.2.2.2.2.2 cNull projNull rfl).trans rfl⟩

/-- The clip-collecting loop over a list of folders is the flat map of the
recursive traversal. -/
theorem get_all_clips_list_eq (fs : List Folder) :
    get_all_clips_list fs = fs.flatMap get_all_clips := by
  induction fs with
  | nil => rfl
  | cons f fs ih => simp [get_all_clips_list, ih]

/-- The folder-collecting loop over a list of folders is the flat map of the
recursive traversal. -/
theorem get_all_folders_list_eq (fs : List Folder) :
    get_all_folders_list fs = fs.flatMap get_all_folders := by
  induction fs with
  | nil => rfl
  | cons f fs ih => simp [get_all_folders_list, ih]

/-- Unfolding of `get_all_clips` on an arbitrary folder: own clips first, then
the sub-folders' clips in order, absent lists read as empty. -/
theorem get_all_clips_eq (n : String) (cl : Option (List Clip))
    (sf : Option (List Folder)) :
    get_all_clips (.mk n cl sf) = cl.getD [] ++ (sf.getD []).flatMap get_all_clips := by
  cases sf with
  | none => simp [get_all_clips]
  | some fs => simp [get_all_clips, get_all_clips_list_eq]

/-- Unfolding of `get_all_folders` on an arbitrary folder: the folder first,
then the sub-folders' folders in order, an absent list read as empty. -/
theorem get_all_folders_eq (n : String) (cl : Option (List Clip))
    (sf : Option (List Folder)) :
    get_all_folders (.mk n cl sf) =
      .mk n cl sf :: (sf.getD []).flatMap get_all_folders := by
  cases sf with
  | none => simp [get_all_folders]
  | some fs => simp [get_all_folders, get_all_folders_list_eq]

mutual
/-- Occurrences of a clip in `get_all_clips` equal its occurrences summed over
the folders of `get_all_folders`. -/
theorem count_clips_folder : ∀ (f : Folder) (x : Clip),
    (get_all_clips f).count x =
      ((get_all_folders f).map (fun g => g.ownClips.count x)).sum
  | .mk n cl none, x => by
    simp [get_all_clips, get_all_folders, Folder.ownClips]
  | .mk n cl (some fs), x => by
    have h := count_clips_list fs x
    simp [get_all_clips, get_all_folders, Folder.ownClips, List.count_append, h]
/-- List version of `count_clips_folder`. -/
theorem count_clips_list : ∀ (fs : List Folder) (x : Clip),
    (get_all_clips_list fs).count x =
      ((get_all_folders_list fs).map (fun g => g.ownClips.count x)).sum
  | [], x => by simp [get_all_clips_list, get_all_folders_list]
  | f :: fs, x => by
    have h1 := count_clips_folder f x
    have h2 := count_clips_list fs x
    simp [get_all_clips_list, get_all_folders_list, List.count_append, h1, h2]
end

mutual
/-- Length of `get_all_clips` equals the total clip count summed over the
folders of `get_all_folders`. -/
theorem length_clips_folder : ∀ f : Folder,
    (get_all_clips f).length =
      ((get_all_folders f).map (fun g => g.ownClips.length)).sum
  | .mk n cl none => by
    simp [get_all_clips, get_all_folders, Folder.ownClips]
  | .mk n cl (some fs) => by
    have h := length_clips_list fs
    simp [get_all_clips, get_all_folders, Folder.ownClips, h]
/-- List version of `length_clips_folder`. -/
theorem length_clips_list : ∀ fs : List Folder,
    (get_all_clips_list fs).length =
      ((get_all_folders_list fs).map (fun g => g.ownClips.length)).sum
  | [] => by simp [get_all_clips_list, get_all_folders_list]
  | f :: fs => by
    have h1 := length_clips_folder f
    have h2 := length_clips_list fs
    simp [get_all_clips_list, get_all_folders_list, h1, h2]
end

/-- C3: `get_all_clips` traverses in pre-order (own clips before descendants,
children in native order), treats absent clip or sub-folder lists as empty,
and returns exactly the tree's clips: its length is the total clip count over
all folders and each clip occurs exactly as often as it does in the tree. -/
theorem get_all_clips_preorder_count :
    (∀ (n : String) (cl : Option (List Clip)) (sf : Option (List Folder)),
      get_all_clips (.mk n cl sf) = cl.getD [] ++ (sf.getD []).flatMap get_all_clips)
    ∧ (∀ f : Folder,
      (get_all_clips f).length =
        ((get_all_folders f).map (fun g => g.ownClips.length)).sum)
    ∧ (∀ (f : Folder) (x : Clip),
      (get_all_clips f).count x =
        ((get_all_folders f).map (fun g => g.ownClips.count x)).sum) :=
  ⟨get_all_clips_eq, length_clips_folder, count_clips_folder⟩

/-- The first-match loop of `find_folder_by_name` is `List.find?`. -/
theorem first_folder_match_eq (name : String) (l : List Folder) :
    first_folder_match name l = l.find? (fun f => f.getName == name) := by
  induction l with
  | nil => rfl
  | cons f fs ih =>
    cases h : f.getName == name <;>
      simp [first_folder_match, List.find?_cons, h, ih]

/-- C7: `find_folder_by_name` returns the media pool root for the
case-insensitive aliases `root` and `master` on any tree, and otherwise the
first name match of the pre-order folder traversal, or an absent result. -/
theorem find_folder_by_name_spec (c : ResolveConnection) (mp : MediaPoolHandle)
    (name : String) (h : c.media_pool = .ok mp) :
    ((pyLower name == "root" || pyLower name == "master") = true →
      c.find_folder_by_name name = .ok (some mp.rootFolder))
    ∧ ((pyLower name == "root" || pyLower name == "master") = false →
      c.find_folder_by_name name =
        .ok ((get_all_folders mp.rootFolder).find? (fun f => f.getName == name)))
    ∧ (∀ (n : String) (cl : Option (List Clip)) (sf : Option (List Folder)),
      get_all_folders (.mk n cl sf) =
        .mk n cl sf :: (sf.getD []).flatMap get_all_folders) := by
  refine ⟨?_, ?_, get_all_folders_eq⟩
  · intro hname
    simp only [ResolveConnection.find_folder_by_name, hname, if_true, h,
      except_bind_ok]
    rfl
  · intro hname
    simp only [ResolveConnection.find_folder_by_name, hname, Bool.false_eq_true,
      if_false, h, except_bind_ok, first_folder_match_eq]
    rfl

/-- C7 witness: the aliases and a scanned name evaluated on a concrete tree. -/
theorem find_folder_by_name_spec_witness :
    cEx.find_folder_by_name "ROOT" = .ok (some rootEx)
    ∧ cEx.find_folder_by_name "MASTER" = .ok (some rootEx)
    ∧ cEx.find_folder_by_name "B" = .ok (some folderB) := by
  refine ⟨?_, ?_, ?_⟩
  · exact ((find_folder_by_name_spec cEx mpEx "ROOT" rfl).1 rfl).trans (by rfl)
  · exact ((find_folder_by_name_spec cEx mpEx "MASTER" rfl).1 rfl).trans (by rfl)
  · exact ((find_folder_by_name_spec cEx mpEx "B" rfl).2.1 rfl).trans (by rfl)

/-- Dispatch of `tracksOf` at the literal `video`. -/
theorem tracksOf_video (tl : TimelineHandle) : tl.tracksOf "video" = tl.videoTracks := rfl

/-- Dispatch of `tracksOf` at the literal `audio`. -/
theorem tracksOf_audio (tl : TimelineHandle) : tl.tracksOf "audio" = tl.audioTracks := rfl

/-- Dispatch of `tracksOf` at the literal `subtitle`. -/
theorem tracksOf_subtitle (tl : TimelineHandle) :
    tl.tracksOf "subtitle" = tl.subtitleTracks := rfl

/-- The per-track-type scan loop is the first match of the flattened
per-track-type scan order. -/
theorem scan_track_eq (ty item_id : String) :
    ∀ (idx : Nat) (ts : List (Option (List TimelineItem))),
      scan_track ty item_id idx ts =
        (track_scan_from ty idx ts).find? (matches_id item_id)
  | _, [] => rfl
  | idx, t :: rest => by
    have ih := scan_track_eq ty item_id (idx + 1) rest
    have hcomp : (matches_id item_id ∘ fun item : TimelineItem => (item, ty, idx)) =
        fun item => item.uniqueId == item_id := rfl
    rw [scan_track, track_scan_from, List.find?_append, List.find?_map, hcomp, ← ih]
    cases h : (t.getD []).find? (fun item => item.uniqueId == item_id) <;>
      simp [h, Option.or]

/-- The whole track-type loop is the first match of the full scan order:
video, then audio, then subtitle. -/
theorem scan_types_eq (tl : TimelineHandle) (item_id : String) :
    scan_types tl item_id ["video", "audio", "subtitle"] =
      (timeline_scan_order tl).find? (matches_id item_id) := by
  have hv := scan_track_eq "video" item_id 1 tl.videoTracks
  have ha := scan_track_eq "audio" item_id 1 tl.audioTracks
  have hs := scan_track_eq "subtitle" item_id 1 tl.subtitleTracks
  rw [timeline_scan_order, List.find?_append, List.find?_append, ← hv, ← ha, ← hs]
  simp only [scan_types, tracksOf_video, tracksOf_audio, tracksOf_subtitle]
  cases scan_track "video" item_id 1 tl.videoTracks <;>
    cases scan_track "audio" item_id 1 tl.audioTracks <;>
      cases scan_track "subtitle" item_id 1 tl.subtitleTracks <;>
        simp [Option.or]

/-- C5: `find_timeline_item_by_id` returns the first item of the
video-audio-subtitle scan order (ascending 1-based track index, items in list
order) whose unique id, as a string, equals `item_id`, with its track type and
index — so on duplicate ids the earlier-scanned item wins — and an absent
result exactly when no item matches. -/
theorem find_timeline_item_first_match (c : ResolveConnection) (tl : TimelineHandle)
    (item_id : String) (h : c.current_timeline = .ok tl) :
    c.find_timeline_item_by_id item_id =
      .ok ((timeline_scan_order tl).find? (matches_id item_id))
    ∧ ((timeline_scan_order tl).find? (matches_id item_id) = none ↔
      ∀ e ∈ timeline_scan_order tl, e.1.uniqueId ≠ item_id) := by
  constructor
  · simp only [ResolveConnection.find_timeline_item_by_id, h, except_bind_ok,
      scan_types_eq]
    rfl
  · rw [List.find?_eq_none]
    simp [matches_id]

/-- C5 witness: on a timeline where video track 3 and audio track 1 share the
id `dup`, the video item wins; a missing id yields an absent result. -/
theorem find_timeline_item_first_match_witness :
    cEx.find_timeline_item_by_id "dup" = .ok (some (⟨"dup"⟩, "video", 3))
    ∧ cEx.find_timeline_item_by_id "nope" = .ok none := by
  constructor
  · exact ((find_timeline_item_first_match cEx tlEx "dup" rfl).1).trans (by rfl)
  · exact ((find_timeline_item_first_match cEx tlEx "nope" rfl).1).trans (by rfl)

/-- C4: the page-scoped wrapper records the current page, calls the switch to
the target inside the `try` block exactly when the recorded page differs, and
calls the switch back to the recorded page in the `finally` block — on every
exit path, normal return or exception — exactly when the recorded page is
non-empty and differs from the target. -/
theorem with_page_scoped (T : Type) (page : String) (c : ResolveConnection)
    (handler : Except PyExc T) (original : String)
    (h : c.get_current_page = .ok original) :
    (with_page page c handler).callsBefore = (if original != page then [page] else [])
    ∧ (with_page page c handler).callsAfter =
      (if original != "" && original != page then [original] else []) := by
  by_cases h0 : original = "" <;>
    by_cases h1 : (original != page) = true <;>
      cases hsw : c.switch_page page <;>
        cases hsw2 : c.switch_page original <;>
          simp [with_page, h, h0, h1, hsw, hsw2]
  all_goals simp_all [bne_iff_ne]

/-- C4 witness: with recorded page `edit` and target `color`, the restore call
fires both when the handler raises and when it returns; with target equal to
the recorded page, no switch happens. -/
theorem with_page_scoped_witness :
    (with_page "color" cEx (Except.error (.otherError "boom") : Except PyExc Nat)).callsAfter
      = ["edit"]
    ∧ (with_page "color" cEx (Except.ok (0 : Nat))).callsAfter = ["edit"]
    ∧ (with_page "edit" cEx (Except.ok (0 : Nat))).callsBefore = [] := by
  refine ⟨?_, ?_, ?_⟩
  · exact ((with_page_scoped Nat "color" cEx
      (Except.error (.otherError "boom")) "edit" rfl).2).trans (by rfl)
  · exact ((with_page_scoped Nat "color" cEx
      (Except.ok 0) "edit" rfl).2).trans (by rfl)
  · exact ((with_page_scoped Nat "edit" cEx
      (Except.ok 0) "edit" rfl).1).trans (by rfl)

/-- C9 counterexample: a connected state whose media storage and gallery
objects are absent; both accessors return the null reference silently instead
of raising, refuting the claim for these accessors. -/
theorem media_storage_silent_null :
    cNull.is_connected = true
    ∧ cNull.media_storage = .ok none
    ∧ cNull.gallery = .ok none :=
  ⟨rfl, rfl, rfl⟩

end DaVinciResolve
